import Mathlib

/-
  Verification development for metaclean (src/metaclean.py), a CLI tool that
  scans and strips EXIF/GPS/copyright metadata from raster images.

  The Python source is shallowly embedded below: pure policy functions become
  Lean functions over an explicit tag-mapping type; the filesystem effects of
  the atomic writer become explicit state passing over a small filesystem
  record; the behaviour of the external image library (Pillow) is modelled
  only to the extent the source relies on it, following the source's own
  comments and the specification's description of the codec adapter.
-/

namespace Metaclean

/-! ## Tag mappings (Image.Exif)

An EXIF mapping is a key-value mapping from integer tag ids to values.
Values in real EXIF data are strings, integers, rationals, and nested IFDs;
the tags this program manipulates hold strings (DateTimeOriginal, Copyright)
and small integers (Orientation), so values are modelled as a sum of those. -/

inductive ExifVal where
  | str (s : String)
  | num (n : Nat)
deriving DecidableEq, Repr

def ExifVal.render : ExifVal → String
  | .str s => s
  | .num n => toString n

/-- A tag mapping: association list from tag id to value.  Mappings built by
the program have distinct keys; lookup returns the first binding. -/
abbrev Exif := List (Nat × ExifVal)

def Exif.get : Exif → Nat → Option ExifVal
  | [], _ => none
  | (k, v) :: rest, k2 => if k = k2 then some v else Exif.get rest k2

/-- Dictionary assignment (`exif[k] = v`): the binding for `k` is replaced. -/
def Exif.set (e : Exif) (k : Nat) (v : ExifVal) : Exif :=
  (k, v) :: e.filter (fun p => p.1 != k)

def Exif.erase (e : Exif) (k : Nat) : Exif :=
  e.filter (fun p => p.1 != k)

/-! ## Tag ids

The source resolves these through Pillow's `ExifTags.TAGS` reverse lookup
(`EXIF_TAGS_REVERSE.get(...)`); in the standard registry shipped with Pillow
these lookups always succeed and yield the standard EXIF tag ids below, so
the `TAG_COPYRIGHT is not None` guard in `build_new_exif` is always true. -/

def TAG_DATETIME_ORIGINAL : Nat := 36867
def TAG_ORIENTATION : Nat := 274
def TAG_COPYRIGHT : Nat := 33432
def TAG_GPS_IFD : Nat := 34853

/-! ## Python string truthiness

`if copyright_text:` is false for `None` and for the empty string. -/

def truthyStr : Option String → Bool
  | none => false
  | some s => !s.isEmpty

/-! ## build_new_exif (metaclean.py lines 92-101)

```
def build_new_exif(src_exif, keep_date, keep_orientation, copyright_text):
    new_exif = Image.Exif()
    if src_exif:
        if keep_date and TAG_DATETIME_ORIGINAL in src_exif:
            new_exif[TAG_DATETIME_ORIGINAL] = src_exif[TAG_DATETIME_ORIGINAL]
        if keep_orientation and TAG_ORIENTATION in src_exif:
            new_exif[TAG_ORIENTATION] = src_exif[TAG_ORIENTATION]
    if copyright_text and TAG_COPYRIGHT is not None:
        new_exif[TAG_COPYRIGHT] = copyright_text
    return new_exif
```
The single `if src_exif:` block guarding both copies is rendered as the same
emptiness test on each copy; `tag in src_exif` followed by `src_exif[tag]`
is rendered as a match on the lookup. -/

def build_new_exif (src_exif : Exif) (keep_date : Bool) (keep_orientation : Bool)
    (copyright_text : Option String) : Exif :=
  let new0 : Exif := []
  let new1 :=
    if !src_exif.isEmpty then
      if keep_date then
        match Exif.get src_exif TAG_DATETIME_ORIGINAL with
        | some v => Exif.set new0 TAG_DATETIME_ORIGINAL v
        | none => new0
      else new0
    else new0
  let new2 :=
    if !src_exif.isEmpty then
      if keep_orientation then
        match Exif.get src_exif TAG_ORIENTATION with
        | some v => Exif.set new1 TAG_ORIENTATION v
        | none => new1
      else new1
    else new1
  if truthyStr copyright_text then
    Exif.set new2 TAG_COPYRIGHT (ExifVal.str (copyright_text.getD ""))
  else new2


/-! ## save_atomic (metaclean.py lines 109-123)

```
def save_atomic(img, outpath, **save_kwargs):
    outpath.parent.mkdir(parents=True, exist_ok=True)
    with tempfile.NamedTemporaryFile(dir=str(outpath.parent), delete=False, suffix=outpath.suffix) as tmp:
        tmp_name = tmp.name
    try:
        img.save(tmp_name, **save_kwargs)
        Path(tmp_name).replace(outpath)
    except Exception:
        try:
            Path(tmp_name).unlink(missing_ok=True)
        except Exception:
            pass
        raise
```
The filesystem state visible to this function is modelled explicitly: the
contents at the destination path, the temporary file the function creates in
the destination's own directory, whether the destination directory exists,
and the history of contents ever placed at the destination path (to express
that the destination changes at most once, by the rename).  The environment
record says which of the three external operations (encode, rename, unlink)
fail on this call, and with which error message. -/

structure FS where
  destDirExists : Bool
  dest : Option Nat
  tmpInDestDir : Option Nat
  destWrites : List Nat
deriving DecidableEq, Repr

structure AtomicEnv where
  encodeFails : Bool
  encodeErr : String
  renameFails : Bool
  renameErr : String
  unlinkFails : Bool
deriving DecidableEq, Repr

/-- Abstract encoding of an image (identified by a Nat) to file contents. -/
def encode (img : Nat) : Nat := img

def save_atomic (img : Nat) (fs : FS) (env : AtomicEnv) : FS × Option String :=
  let fs1 : FS := { fs with destDirExists := true }
  let fs2 : FS := { fs1 with tmpInDestDir := some 0 }
  if env.encodeFails then
    let fs3 := if env.unlinkFails then fs2 else { fs2 with tmpInDestDir := none }
    (fs3, some env.encodeErr)
  else
    let fs3 : FS := { fs2 with tmpInDestDir := some (encode img) }
    if env.renameFails then
      let fs4 := if env.unlinkFails then fs3 else { fs3 with tmpInDestDir := none }
      (fs4, some env.renameErr)
    else
      ({ fs3 with dest := some (encode img), tmpInDestDir := none,
                  destWrites := fs3.destWrites ++ [encode img] }, none)

/-! ## Images

An opened image handle, as the source uses it: detected format (possibly
absent), the EXIF mapping from `getexif()`, the decoded pixel buffer of the
(first) frame, the animation/frame-count probes used by `is_multiframe`
(each probe either returns a value or raises), and the optional ICC profile
and DPI entries of `img.info`.  A pixel buffer records its raw data plus the
orientation that `ImageOps.exif_transpose` applied to it, if any. -/

structure Pixels where
  data : Nat
  deOrient : Option Nat
deriving DecidableEq, Repr

instance exceptDecEq {e a : Type} [DecidableEq e] [DecidableEq a] :
    DecidableEq (Except e a) := fun x y =>
  match x, y with
  | .error e1, .error e2 =>
    if h : e1 = e2 then isTrue (by rw [h]) else isFalse (fun hc => h (by cases hc; rfl))
  | .ok v1, .ok v2 =>
    if h : v1 = v2 then isTrue (by rw [h]) else isFalse (fun hc => h (by cases hc; rfl))
  | .error _, .ok _ => isFalse (fun hc => Except.noConfusion hc)
  | .ok _, .error _ => isFalse (fun hc => Except.noConfusion hc)

structure Image where
  format : Option String
  exif : Exif
  pixels : Pixels
  animated_probe : Except Unit Bool
  nframes_probe : Except Unit Nat
  icc_profile : Option String
  dpi : Option (Nat × Nat)
deriving DecidableEq, Repr

/-! ## is_multiframe (metaclean.py lines 103-107)

```
def is_multiframe(img):
    try:
        return getattr(img, "is_animated", False) or getattr(img, "n_frames", 1) > 1
    except Exception:
        return False
```
`or` is short-circuiting: when the animation probe raises, the whole
expression raises and the handler returns False; when it returns True, the
frame-count probe is never evaluated.  An image lacking the attribute is a
probe returning the getattr default. -/

def is_multiframe (img : Image) : Bool :=
  match img.animated_probe with
  | .error _ => false
  | .ok true => true
  | .ok false =>
    match img.nframes_probe with
    | .error _ => false
    | .ok n => decide (n > 1)

/-! ## ImageOps.exif_transpose (external, modelled from Pillow's behaviour
as the source relies on it): if the image's EXIF orientation tag holds one of
the transposition methods 2..8, return the image with that transposition
applied to the pixels and the orientation tag removed; otherwise return the
image unchanged. -/

def exif_transpose (img : Image) : Image :=
  match Exif.get img.exif TAG_ORIENTATION with
  | some (ExifVal.num n) =>
    if 2 ≤ n ∧ n ≤ 8 then
      { img with pixels := { data := img.pixels.data, deOrient := some n },
                 exif := Exif.erase img.exif TAG_ORIENTATION }
    else img
  | _ => img


/-! ## Path helpers (pathlib.PurePath as the source uses it)

Rendered over character lists to keep everything kernel-evaluable on
concrete paths.  POSIX separators; `suffix` follows pathlib: the part of the
final component from its last dot, empty when the dot is at position 0 or at
the very end. -/

def splitSlash : List Char → List (List Char)
  | [] => [[]]
  | c :: rest =>
    let r := splitSlash rest
    if c = '/' then [] :: r
    else
      match r with
      | [] => [[c]]
      | h :: t => (c :: h) :: t

def pathName (p : String) : String :=
  String.mk ((((splitSlash p.toList).filter (fun l => !l.isEmpty)).getLast?).getD [])

def pathSuffix (p : String) : String :=
  let cs := (pathName p).toList
  match cs.reverse.findIdx? (fun c => c == '.') with
  | none => ""
  | some j =>
    let i := cs.length - 1 - j
    if 0 < i ∧ i < cs.length - 1 then String.mk (cs.drop i) else ""

def pathStem (p : String) : String :=
  let name := (pathName p).toList
  let suf := (pathSuffix p).toList
  String.mk (name.take (name.length - suf.length))

def pathParent (p : String) : String :=
  let comps := splitSlash p.toList
  if comps.length ≤ 1 then "."
  else
    let par := comps.dropLast
    if par = [[]] then "/" else String.mk (List.intercalate ['/'] par)

/-- Python str.lower on the ASCII range, which is all the extension filter
needs. -/
def asciiLower (c : Char) : Char :=
  if 'A' ≤ c ∧ c ≤ 'Z' then Char.ofNat (c.toNat + 32) else c

def lowerStr (s : String) : String := String.mk (s.toList.map asciiLower)

/-- Python str.upper on the ASCII range, used on format names. -/
def asciiUpper (c : Char) : Char :=
  if 'a' ≤ c ∧ c ≤ 'z' then Char.ofNat (c.toNat - 32) else c

def upperStr (s : String) : String := String.mk (s.toList.map asciiUpper)

/-- Python str.strip with no arguments: drop surrounding whitespace. -/
def pyStrip (s : String) : String :=
  String.mk (((s.toList.dropWhile Char.isWhitespace).reverse.dropWhile
    Char.isWhitespace).reverse)

/-! ## Console messages

Each constructor is one print statement of the source; `Msg.render` gives
the exact formatted line. -/

inductive Msg where
  | errorCannotOpen (path msg : String)
  | infoNoExif (path : String)
  | metadataHeader (path : String)
  | tagLine (tag : String) (val : ExifVal)
  | gpsHeader
  | gpsLine (tag : String) (val : ExifVal)
  | plainPath (path : String)
  | skipAnimated (path : String)
  | errorCouldNotSave (outname msg : String)
  | warnUnknownFormat (fmtOrSuffix : String)
  | okStrippedInPlace (outname : String)
  | okCleaned (path outname : String)
  | okAddedCopyright (text : String)
  | skipDirectory (path : String)
  | skipUnsupported (path : String)
deriving DecidableEq, Repr

def Msg.render : Msg → String
  | .errorCannotOpen path msg => "[ERROR] Cannot open " ++ path ++ ": " ++ msg
  | .infoNoExif path => "[INFO] No EXIF metadata found in " ++ path
  | .metadataHeader path => "=== Metadata for " ++ path ++ " ==="
  | .tagLine tag val => tag ++ ": " ++ ExifVal.render val
  | .gpsHeader => "---- GPS ----"
  | .gpsLine tag val => tag ++ ": " ++ ExifVal.render val
  | .plainPath path => path
  | .skipAnimated path =>
      "[SKIP] Animated/multi-frame image: " ++ path ++ " (use --force to process first frame)"
  | .errorCouldNotSave outname msg => "[ERROR] Could not save " ++ outname ++ ": " ++ msg
  | .warnUnknownFormat f =>
      "[WARN] Unknown/less-tested format " ++ f ++ "; saved without explicit metadata."
  | .okStrippedInPlace outname => "[OK] Stripped metadata IN PLACE → " ++ outname
  | .okCleaned path outname => "[OK] Cleaned " ++ path ++ " → " ++ outname
  | .okAddedCopyright text => "[OK] Added copyright: " ++ text
  | .skipDirectory path => "[SKIP] Directory: " ++ path
  | .skipUnsupported path => "[SKIP] Not a supported image type: " ++ path

/-! ## Strip policy (the per-invocation configuration, metaclean.py 125-129) -/

structure StripPolicy where
  outdir : Option String
  copyright_text : Option String
  keep_date : Bool
  keep_orientation : Bool
  keep_icc : Bool
  keep_dpi : Bool
  inplace : Bool
  force : Bool
  quality : Nat
  progressive : Option Bool
deriving DecidableEq, Repr

/-- Output filename choice, metaclean.py lines 150-155. -/
def outNameOf (path : String) (pol : StripPolicy) : String :=
  if pol.inplace then path
  else (pol.outdir.getD (pathParent path)) ++ "/" ++ (pathStem path ++ "_clean" ++ pathSuffix path)

/-- The success report lines, metaclean.py lines 216-222: one OK line for
the written file, then the copyright confirmation when a truthy copyright
string was supplied. -/
def okMsgsOf (path outname : String) (pol : StripPolicy) : List Msg :=
  (if pol.inplace then [Msg.okStrippedInPlace outname] else [Msg.okCleaned path outname])
    ++ (if truthyStr pol.copyright_text then [Msg.okAddedCopyright (pol.copyright_text.getD "")]
        else [])

/-! ## The result of one strip invocation

`Saved` records what the external library was told to write on the single
save call: the destination name, the pixel buffer, the replacement tag
mapping handed to the call (`newExif`), the tag mapping that actually lands
in the output file (`writtenExif`: the serialized replacement mapping for
the formats that take an `exif` argument, and empty for PNG — the source
deliberately omits the EXIF chunk, see its line 192 comment — and for the
generic fallback, which passes no metadata fields), and the ICC/DPI save
options.  The encoding knobs (quality, progressive, optimize) are not
tracked: no claim concerns them. -/

structure Saved where
  outname : String
  pixels : Pixels
  writtenExif : Exif
  newExif : Exif
  icc_profile : Option String
  dpi : Option (Nat × Nat)
deriving DecidableEq, Repr

inductive StripEffect where
  | openError (msg : String)
  | skippedMultiframe
  | saveError (outname msg : String)
  | saved (s : Saved)
deriving DecidableEq, Repr

def StripEffect.isSkip : StripEffect → Bool
  | .skippedMultiframe => true
  | _ => false

def StripEffect.savedInfo : StripEffect → Option Saved
  | .saved s => some s
  | _ => none

/-- The formats that receive serialized EXIF bytes, metaclean.py line 162. -/
def FORMATS_EXIF : List String := ["JPEG", "JPG", "TIFF", "WEBP"]

/-! ## strip_metadata (metaclean.py lines 125-222)

Arguments: the path, the result of `Image.open` (an exception message or an
image handle), the policy, and whether this call's `save_atomic` raises
(`saveErr = some msg`) or succeeds (`none`).  Returns the printed messages
in order and the per-file effect.  Mirrors the source control flow: open
failure reported and swallowed; multi-frame skip before any save; pixel
transposition when the orientation tag is not kept; replacement mapping from
`build_new_exif`; format-specific save with per-branch error reporting;
success reports after the save. -/

def strip_metadata (path : String) (opened : Except String Image)
    (pol : StripPolicy) (saveErr : Option String) : List Msg × StripEffect :=
  match opened with
  | .error e => ([Msg.errorCannotOpen path e], .openError e)
  | .ok img =>
    let fmt := upperStr (img.format.getD "")
    let src_exif := img.exif
    let icc_profile := if pol.keep_icc then img.icc_profile else none
    let dpi := if pol.keep_dpi then img.dpi else none
    if is_multiframe img && !pol.force then
      ([Msg.skipAnimated path], .skippedMultiframe)
    else
      let img2 := if !pol.keep_orientation then exif_transpose img else img
      let outname := outNameOf path pol
      let new_exif := build_new_exif src_exif pol.keep_date pol.keep_orientation pol.copyright_text
      if FORMATS_EXIF.contains fmt then
        -- exif_bytes = new_exif.tobytes() if len(new_exif) else b"";
        -- serialization then re-parsing is modelled as the identity on the
        -- mapping, with empty bytes as the empty mapping.
        match saveErr with
        | some e => ([Msg.errorCouldNotSave outname e], .saveError outname e)
        | none =>
          (okMsgsOf path outname pol,
           .saved { outname := outname, pixels := img2.pixels, writtenExif := new_exif,
                    newExif := new_exif,
                    icc_profile := if truthyStr icc_profile then icc_profile else none,
                    dpi := dpi })
      else if fmt = "PNG" then
        match saveErr with
        | some e => ([Msg.errorCouldNotSave outname e], .saveError outname e)
        | none =>
          (okMsgsOf path outname pol,
           .saved { outname := outname, pixels := img2.pixels, writtenExif := [],
                    newExif := new_exif,
                    icc_profile := if truthyStr icc_profile then icc_profile else none,
                    dpi := dpi })
      else
        match saveErr with
        | some e => ([Msg.errorCouldNotSave outname e], .saveError outname e)
        | none =>
          (Msg.warnUnknownFormat (if fmt.isEmpty then pathSuffix path else fmt)
             :: okMsgsOf path outname pol,
           .saved { outname := outname, pixels := img2.pixels, writtenExif := [],
                    newExif := new_exif, icc_profile := none, dpi := none })

/-! ## Tag-name registries (external library data)

Modelled fragment of Pillow's `ExifTags.TAGS` / `ExifTags.GPSTAGS`
registries; unknown ids fall back to the synthetic names the source builds. -/

def ExifTags_TAGS : List (Nat × String) :=
  [(270, "ImageDescription"), (271, "Make"), (272, "Model"), (274, "Orientation"),
   (306, "DateTime"), (33432, "Copyright"), (34853, "GPSInfo"), (36867, "DateTimeOriginal")]

def tagNameOf (tag_id : Nat) : String :=
  match ExifTags_TAGS.find? (fun p => p.1 == tag_id) with
  | some p => p.2
  | none => "Unknown(" ++ toString tag_id ++ ")"

def GPSTAGS : List (Nat × String) :=
  [(1, "GPSLatitudeRef"), (2, "GPSLatitude"), (3, "GPSLongitudeRef"), (4, "GPSLongitude")]

def gpsNameOf (k : Nat) : String :=
  match GPSTAGS.find? (fun p => p.1 == k) with
  | some p => p.2
  | none => "GPS_" ++ toString k

/-! ## scan_metadata (metaclean.py lines 50-86)

A scan input is the path, the outcome of opening the file and reading its
tag mapping (`Image.open` + `getexif`), and the nested GPS sub-mapping that
`exif.get_ifd(TAG_GPS_IFD)` would return (`Image.Exif` always has `get_ifd`,
so the hasattr branch always takes it).  Returns the printed messages and
the has-metadata boolean. -/

structure ScanInput where
  path : String
  opened : Except String Exif
  gps_ifd : Exif
deriving DecidableEq, Repr

def scan_metadata (inp : ScanInput) (verbose show_gps : Bool) : List Msg × Bool :=
  match inp.opened with
  | .error e => ((if verbose then [Msg.errorCannotOpen inp.path e] else []), false)
  | .ok exif =>
    if exif.isEmpty then
      ((if verbose then [Msg.infoNoExif inp.path] else []), false)
    else
      ((if verbose then
          Msg.metadataHeader inp.path
            :: exif.map (fun p => Msg.tagLine (tagNameOf p.1) p.2)
            ++ (if show_gps && (Exif.get exif TAG_GPS_IFD).isSome then
                  if !inp.gps_ifd.isEmpty then
                    Msg.gpsHeader :: inp.gps_ifd.map (fun p => Msg.gpsLine (gpsNameOf p.1) p.2)
                  else []
                else [])
        else []), true)

/-- Scan-mode body of the main loop (metaclean.py lines 327-331): scan each
file with verbosity `not positives`, then in positives mode print only the
path of the files whose scan found metadata. -/
def scan_mode_run (inputs : List ScanInput) (positives show_gps : Bool) : List Msg :=
  (inputs.map (fun inp =>
    let r := scan_metadata inp (!positives) show_gps
    r.1 ++ (if positives && r.2 then [Msg.plainPath inp.path] else []))).flatten

/-- A readable file with a non-empty tag mapping. -/
def hasMetaB (inp : ScanInput) : Bool :=
  match inp.opened with
  | .ok e => !e.isEmpty
  | .error _ => false

/-! ## Batch driver -/

/-- files_from_stdin_or_args (metaclean.py lines 228-243): when stdin is not
a terminal (`stdinLines = some lines`; each element one stdin line without
its terminator) yield each line stripped of surrounding whitespace when the
stripped line is non-empty, then yield the positional arguments.  The
`any_yielded` bookkeeping of the source only feeds a final bare `return` and
does not affect the yielded sequence. -/
def files_from_stdin_or_args (stdinLines : Option (List String)) (files : List String) :
    List String :=
  (match stdinLines with
   | some lines =>
     lines.foldr (fun line acc =>
       let line := pyStrip line
       if !line.isEmpty then line :: acc else acc) []
   | none => []) ++ files

def SUPPORTED_EXTS : List String := [".jpg", ".jpeg", ".png", ".webp", ".tif", ".tiff"]

inductive DriverAction where
  | report (m : Msg)
  | dispatch (path : String)
deriving DecidableEq, Repr

/-- The per-candidate filter of the main loop (metaclean.py lines 311-324):
directories are skipped with a report, unsupported extensions are skipped
with a report, everything else is dispatched to the selected scan/strip
modes.  One action per candidate, in order; a skip never stops the loop. -/
def process_candidates (isDir : String → Bool) : List String → List DriverAction
  | [] => []
  | p :: rest =>
    (if isDir p then DriverAction.report (Msg.skipDirectory p)
     else if !(SUPPORTED_EXTS.contains (lowerStr (pathSuffix p))) then
       DriverAction.report (Msg.skipUnsupported p)
     else DriverAction.dispatch p) :: process_candidates isDir rest

/-- A candidate that reaches the scan/strip dispatch. -/
def supportedFile (isDir : String → Bool) (p : String) : Bool :=
  !isDir p && SUPPORTED_EXTS.contains (lowerStr (pathSuffix p))

def dispatchedPaths : List DriverAction → List String
  | [] => []
  | DriverAction.dispatch p :: rest => p :: dispatchedPaths rest
  | DriverAction.report _ :: rest => dispatchedPaths rest

/-- Strip-mode batch body: one strip_metadata call per dispatched file, each
with its own open result and save outcome. -/
structure StripInput where
  path : String
  opened : Except String Image
  saveErr : Option String
deriving DecidableEq, Repr

def strip_mode_run (pol : StripPolicy) (inputs : List StripInput) :
    List (List Msg × StripEffect) :=
  inputs.map (fun i => strip_metadata i.path i.opened pol i.saveErr)

/-! ## Claim-side reference definitions

The candidate-sequence characterizations that claim C7 asserts, written from
the claim text so they can be compared with `files_from_stdin_or_args`. -/

/-- The candidate sequence as claim C7 words it: the non-empty stdin lines,
as read, followed by the positional arguments. -/
def C7claimedCandidates (stdinLines : Option (List String)) (files : List String) :
    List String :=
  (match stdinLines with
   | some lines => lines.filter (fun l => !l.isEmpty)
   | none => []) ++ files

/-- The candidate sequence as amended: the whitespace-stripped stdin lines
that are non-empty after stripping, followed by the positional arguments. -/
def C7strippedCandidates (stdinLines : Option (List String)) (files : List String) :
    List String :=
  (match stdinLines with
   | some lines => (lines.map pyStrip).filter (fun l => !l.isEmpty)
   | none => []) ++ files

/-! ## Concrete data used by witnesses and counterexamples -/

def polBase : StripPolicy :=
  { outdir := none, copyright_text := none, keep_date := false, keep_orientation := false,
    keep_icc := false, keep_dpi := false, inplace := false, force := false,
    quality := 95, progressive := none }

def imgBaseJpeg : Image :=
  { format := some "JPEG", exif := [], pixels := { data := 7, deOrient := none },
    animated_probe := Except.ok false, nframes_probe := Except.ok 1,
    icc_profile := none, dpi := none }

def C2fs : FS :=
  { destDirExists := false, dest := some 9, tmpInDestDir := none, destWrites := [9] }

def C2envEncodeFail : AtomicEnv :=
  { encodeFails := true, encodeErr := "disk full", renameFails := false,
    renameErr := "cross-device link", unlinkFails := false }

def C3png : Image :=
  { imgBaseJpeg with format := some "PNG",
                     exif := [(TAG_COPYRIGHT, ExifVal.str "old holder")],
                     pixels := { data := 3, deOrient := none } }

def C4anim : Image :=
  { imgBaseJpeg with format := some "WEBP",
                     animated_probe := Except.ok true, nframes_probe := Except.ok 4 }

def C5jpeg : Image :=
  { imgBaseJpeg with
      exif := [(TAG_ORIENTATION, ExifVal.num 6),
               (TAG_DATETIME_ORIGINAL, ExifVal.str "2024:01:01 00:00:00")] }

def C10probeErr : Image :=
  { imgBaseJpeg with animated_probe := Except.error (), nframes_probe := Except.error () }

/-- The saved-file record that stripping C5jpeg under polBase produces. -/
def C5rec : Saved :=
  { outname := "./a_clean.jpg", pixels := { data := 7, deOrient := some 6 },
    writtenExif := [], newExif := [], icc_profile := none, dpi := none }


/-! # Theorems

Helper lemmas first, then one theorem per claim, each with its witness or
counterexample as required. -/

theorem Exif.get_nil (k : Nat) : Exif.get [] k = none := rfl

theorem Exif.get_filter_ne (e : Exif) (k k2 : Nat) (h : k2 ≠ k) :
    Exif.get (e.filter (fun p => p.1 != k)) k2 = Exif.get e k2 := by
  induction e with
  | nil => rfl
  | cons hd tl ih =>
    rcases hd with ⟨k1, v1⟩
    by_cases hkk : k1 = k
    · rw [List.filter_cons_of_neg (by simp [hkk])]
      have hk12 : k1 ≠ k2 := by rw [hkk]; exact fun hc => h hc.symm
      rw [ih]
      simp only [Exif.get]
      rw [if_neg hk12]
    · rw [List.filter_cons_of_pos (by simp [hkk])]
      simp only [Exif.get]
      by_cases hk2 : k1 = k2
      · rw [if_pos hk2, if_pos hk2]
      · rw [if_neg hk2, if_neg hk2, ih]

theorem Exif.get_set_self (e : Exif) (k : Nat) (v : ExifVal) :
    Exif.get (Exif.set e k v) k = some v := by
  simp [Exif.set, Exif.get]

theorem Exif.get_set_ne (e : Exif) (k k2 : Nat) (v : ExifVal) (h : k2 ≠ k) :
    Exif.get (Exif.set e k v) k2 = Exif.get e k2 := by
  simp only [Exif.set, Exif.get]
  rw [if_neg (fun hc => h hc.symm)]
  exact Exif.get_filter_ne e k k2 h

theorem build_get_date (s : Exif) (kd ko : Bool) (ct : Option String) :
    Exif.get (build_new_exif s kd ko ct) TAG_DATETIME_ORIGINAL =
      if kd then Exif.get s TAG_DATETIME_ORIGINAL else none := by
  cases s with
  | nil =>
    cases kd <;> cases ko <;>
      simp [build_new_exif, truthyStr, Exif.get_nil] <;>
      split <;>
      simp [Exif.get_set_ne _ _ _ _ (by decide : TAG_DATETIME_ORIGINAL ≠ TAG_COPYRIGHT),
            Exif.get_nil]
  | cons hd tl =>
    cases kd <;> cases ko <;>
      simp only [build_new_exif, List.isEmpty_cons, Bool.not_false, if_true, if_false,
                 Bool.false_eq_true, Bool.true_eq_false, ite_true, ite_false] <;>
      rcases hdt : Exif.get (hd :: tl) TAG_DATETIME_ORIGINAL with _ | v <;>
      rcases hor : Exif.get (hd :: tl) TAG_ORIENTATION with _ | w <;>
      split <;>
      simp_all [Exif.get_set_ne _ _ _ _ (by decide : TAG_DATETIME_ORIGINAL ≠ TAG_COPYRIGHT),
                Exif.get_set_ne _ _ _ _ (by decide : TAG_DATETIME_ORIGINAL ≠ TAG_ORIENTATION),
                Exif.get_set_self, Exif.get_nil]

theorem build_get_orientation (s : Exif) (kd ko : Bool) (ct : Option String) :
    Exif.get (build_new_exif s kd ko ct) TAG_ORIENTATION =
      if ko then Exif.get s TAG_ORIENTATION else none := by
  cases s with
  | nil =>
    cases kd <;> cases ko <;>
      simp [build_new_exif, truthyStr, Exif.get_nil] <;>
      split <;>
      simp [Exif.get_set_ne _ _ _ _ (by decide : TAG_ORIENTATION ≠ TAG_COPYRIGHT),
            Exif.get_nil]
  | cons hd tl =>
    cases kd <;> cases ko <;>
      simp only [build_new_exif, List.isEmpty_cons, Bool.not_false, if_true, if_false,
                 Bool.false_eq_true, Bool.true_eq_false, ite_true, ite_false] <;>
      rcases hdt : Exif.get (hd :: tl) TAG_DATETIME_ORIGINAL with _ | v <;>
      rcases hor : Exif.get (hd :: tl) TAG_ORIENTATION with _ | w <;>
      split <;>
      simp_all [Exif.get_set_ne _ _ _ _ (by decide : TAG_ORIENTATION ≠ TAG_COPYRIGHT),
                Exif.get_set_ne _ _ _ _ (by decide : TAG_ORIENTATION ≠ TAG_DATETIME_ORIGINAL),
                Exif.get_set_self, Exif.get_nil]

theorem build_get_copyright (s : Exif) (kd ko : Bool) (ct : Option String) :
    Exif.get (build_new_exif s kd ko ct) TAG_COPYRIGHT =
      if truthyStr ct then some (ExifVal.str (ct.getD "")) else none := by
  cases s with
  | nil =>
    cases kd <;> cases ko <;>
      simp [build_new_exif, Exif.get_nil] <;>
      split <;>
      simp_all [Exif.get_set_self, Exif.get_nil]
  | cons hd tl =>
    cases kd <;> cases ko <;>
      simp only [build_new_exif, List.isEmpty_cons, Bool.not_false, if_true, if_false,
                 Bool.false_eq_true, Bool.true_eq_false, ite_true, ite_false] <;>
      rcases hdt : Exif.get (hd :: tl) TAG_DATETIME_ORIGINAL with _ | v <;>
      rcases hor : Exif.get (hd :: tl) TAG_ORIENTATION with _ | w <;>
      split <;>
      simp_all [Exif.get_set_self,
                Exif.get_set_ne _ _ _ _ (by decide : TAG_COPYRIGHT ≠ TAG_ORIENTATION),
                Exif.get_set_ne _ _ _ _ (by decide : TAG_COPYRIGHT ≠ TAG_DATETIME_ORIGINAL),
                Exif.get_nil]

theorem build_get_other (s : Exif) (kd ko : Bool) (ct : Option String) (k : Nat)
    (h1 : k ≠ TAG_DATETIME_ORIGINAL) (h2 : k ≠ TAG_ORIENTATION) (h3 : k ≠ TAG_COPYRIGHT) :
    Exif.get (build_new_exif s kd ko ct) k = none := by
  cases s with
  | nil =>
    cases kd <;> cases ko <;>
      simp [build_new_exif, Exif.get_nil] <;>
      split <;>
      simp_all [Exif.get_set_ne _ _ _ _ h3, Exif.get_nil]
  | cons hd tl =>
    cases kd <;> cases ko <;>
      simp only [build_new_exif, List.isEmpty_cons, Bool.not_false, if_true, if_false,
                 Bool.false_eq_true, Bool.true_eq_false, ite_true, ite_false] <;>
      rcases hdt : Exif.get (hd :: tl) TAG_DATETIME_ORIGINAL with _ | v <;>
      rcases hor : Exif.get (hd :: tl) TAG_ORIENTATION with _ | w <;>
      split <;>
      simp_all [Exif.get_set_ne _ _ _ _ h1, Exif.get_set_ne _ _ _ _ h2,
                Exif.get_set_ne _ _ _ _ h3, Exif.get_nil]

theorem truthyStr_iff (ct : Option String) :
    truthyStr ct = true ↔ ∃ t, ct = some t ∧ t ≠ "" := by
  cases ct with
  | none => simp [truthyStr]
  | some s =>
    constructor
    · intro hb
      refine ⟨s, rfl, fun hc => ?_⟩
      subst hc
      exact absurd hb (by decide)
    · rintro ⟨t, ht, hne⟩
      have hst : s = t := Option.some.inj ht
      subst hst
      cases hb : s.isEmpty
      · simp [truthyStr, hb]
      · exact absurd ((String.isEmpty_iff s).mp hb) hne

theorem exif_transpose_data (img : Image) :
    (exif_transpose img).pixels.data = img.pixels.data := by
  unfold exif_transpose
  rcases Exif.get img.exif TAG_ORIENTATION with _ | v
  · rfl
  · cases v with
    | str s => rfl
    | num n =>
      by_cases h : 2 ≤ n ∧ n ≤ 8 <;> simp [h]

theorem pixels_if_data (img : Image) (ko : Bool) :
    (if !ko then exif_transpose img else img).pixels.data = img.pixels.data := by
  cases ko
  · simpa using exif_transpose_data img
  · simp

/-- Closed form of strip_metadata on a successfully opened image: the
definition with its lets expanded, used to drive the per-branch proofs. -/
theorem strip_ok_eq (path : String) (img : Image) (pol : StripPolicy) (sr : Option String) :
    strip_metadata path (Except.ok img) pol sr =
      if is_multiframe img && !pol.force then
        ([Msg.skipAnimated path], StripEffect.skippedMultiframe)
      else if FORMATS_EXIF.contains (upperStr (img.format.getD "")) then
        match sr with
        | some e => ([Msg.errorCouldNotSave (outNameOf path pol) e],
                     StripEffect.saveError (outNameOf path pol) e)
        | none =>
          (okMsgsOf path (outNameOf path pol) pol,
           StripEffect.saved
             { outname := outNameOf path pol,
               pixels := (if !pol.keep_orientation then exif_transpose img else img).pixels,
               writtenExif :=
                 build_new_exif img.exif pol.keep_date pol.keep_orientation pol.copyright_text,
               newExif :=
                 build_new_exif img.exif pol.keep_date pol.keep_orientation pol.copyright_text,
               icc_profile :=
                 if truthyStr (if pol.keep_icc then img.icc_profile else none)
                 then (if pol.keep_icc then img.icc_profile else none) else none,
               dpi := if pol.keep_dpi then img.dpi else none })
      else if upperStr (img.format.getD "") = "PNG" then
        match sr with
        | some e => ([Msg.errorCouldNotSave (outNameOf path pol) e],
                     StripEffect.saveError (outNameOf path pol) e)
        | none =>
          (okMsgsOf path (outNameOf path pol) pol,
           StripEffect.saved
             { outname := outNameOf path pol,
               pixels := (if !pol.keep_orientation then exif_transpose img else img).pixels,
               writtenExif := [],
               newExif :=
                 build_new_exif img.exif pol.keep_date pol.keep_orientation pol.copyright_text,
               icc_profile :=
                 if truthyStr (if pol.keep_icc then img.icc_profile else none)
                 then (if pol.keep_icc then img.icc_profile else none) else none,
               dpi := if pol.keep_dpi then img.dpi else none })
      else
        match sr with
        | some e => ([Msg.errorCouldNotSave (outNameOf path pol) e],
                     StripEffect.saveError (outNameOf path pol) e)
        | none =>
          (Msg.warnUnknownFormat
             (if (upperStr (img.format.getD "")).isEmpty then pathSuffix path
              else upperStr (img.format.getD ""))
             :: okMsgsOf path (outNameOf path pol) pol,
           StripEffect.saved
             { outname := outNameOf path pol,
               pixels := (if !pol.keep_orientation then exif_transpose img else img).pixels,
               writtenExif := [],
               newExif :=
                 build_new_exif img.exif pol.keep_date pol.keep_orientation pol.copyright_text,
               icc_profile := none, dpi := none }) := rfl

/-! ## Claim C1 -/

/-- C1, counterexample.  The claim says the replacement mapping contains
Copyright set to the supplied string if and only if one was provided.  With
the empty string supplied (`copyright_text = some ""`) a copyright string
was provided, yet `build_new_exif` leaves the Copyright tag absent, because
the source tests `if copyright_text:` and the empty Python string is falsy. -/
theorem C1_counterexample :
    (some "" : Option String).isSome = true ∧
    Exif.get (build_new_exif [] false false (some "")) TAG_COPYRIGHT = none := by
  decide

/-- C1, amended: for every source tag mapping and policy, the replacement
mapping built by build_new_exif contains DateTimeOriginal with the source
value iff keep_date is true and the tag is present in the source; contains
Orientation with the source value iff keep_orientation is true and the tag
is present; contains Copyright set to the supplied string iff a non-empty
copyright string was provided (overriding any source value); and contains no
other tags. -/
theorem C1_thm (src : Exif) (kd ko : Bool) (ct : Option String) :
    (∀ v, Exif.get (build_new_exif src kd ko ct) TAG_DATETIME_ORIGINAL = some v ↔
        kd = true ∧ Exif.get src TAG_DATETIME_ORIGINAL = some v)
    ∧ (∀ v, Exif.get (build_new_exif src kd ko ct) TAG_ORIENTATION = some v ↔
        ko = true ∧ Exif.get src TAG_ORIENTATION = some v)
    ∧ (∀ t, Exif.get (build_new_exif src kd ko ct) TAG_COPYRIGHT = some (ExifVal.str t) ↔
        truthyStr ct = true ∧ ct = some t)
    ∧ (∀ k, k ≠ TAG_DATETIME_ORIGINAL → k ≠ TAG_ORIENTATION → k ≠ TAG_COPYRIGHT →
        Exif.get (build_new_exif src kd ko ct) k = none) := by
  refine ⟨?_, ?_, ?_, ?_⟩
  · intro v; rw [build_get_date]; cases kd <;> simp
  · intro v; rw [build_get_orientation]; cases ko <;> simp
  · intro t
    rw [build_get_copyright]
    cases hct : truthyStr ct
    · simp [hct]
    · rcases (truthyStr_iff ct).mp hct with ⟨u, hu, hne⟩
      subst hu
      simp
  · intro k h1 h2 h3
    exact build_get_other src kd ko ct k h1 h2 h3

/-- C1, witness: a concrete run of the amended theorem, with the source
carrying an old copyright value that the supplied string overrides. -/
theorem C1_witness :
    Exif.get (build_new_exif [(TAG_COPYRIGHT, ExifVal.str "old holder")] false false (some "X"))
        TAG_COPYRIGHT = some (ExifVal.str "X") := by
  have h :=
    (C1_thm [(TAG_COPYRIGHT, ExifVal.str "old holder")] false false (some "X")).2.2.1 "X"
  exact h.mpr ⟨by decide, rfl⟩

/-! ## Claim C2 -/

/-- C2: for every image, filesystem state, and environment, save_atomic
behaves as claimed.  If the encode step fails, the encode error propagates;
if encode succeeds and the rename fails, the rename error propagates; on any
such failure the destination is unchanged, its write history is unchanged,
and (when the unlink itself does not fail — an unlink failure being
swallowed) the temporary file created in the destination directory is gone.
On success no error is returned, the destination holds the encoded image,
its write history grows by exactly that one write (performed by the rename),
and no temporary file remains. -/
theorem C2_thm (img : Nat) (fs : FS) (env : AtomicEnv) :
    (env.encodeFails = true → (save_atomic img fs env).2 = some env.encodeErr)
    ∧ (env.encodeFails = false → env.renameFails = true →
        (save_atomic img fs env).2 = some env.renameErr)
    ∧ ((env.encodeFails = true ∨ env.renameFails = true) →
        ((save_atomic img fs env).1.dest = fs.dest
         ∧ (save_atomic img fs env).1.destWrites = fs.destWrites
         ∧ (env.unlinkFails = false → (save_atomic img fs env).1.tmpInDestDir = none)))
    ∧ (env.encodeFails = false → env.renameFails = false →
        ((save_atomic img fs env).2 = none
         ∧ (save_atomic img fs env).1.dest = some (encode img)
         ∧ (save_atomic img fs env).1.destWrites = fs.destWrites ++ [encode img]
         ∧ (save_atomic img fs env).1.tmpInDestDir = none)) := by
  rcases env with ⟨ef, ee, rf, re, uf⟩
  cases ef <;> cases rf <;> cases uf <;> simp [save_atomic]

/-- C2, witness: a concrete failing encode leaves the pre-existing
destination contents and write history intact, removes the temporary file,
and surfaces the encode error. -/
theorem C2_witness :
    (save_atomic 5 C2fs C2envEncodeFail).2 = some "disk full"
    ∧ (save_atomic 5 C2fs C2envEncodeFail).1.dest = some 9
    ∧ (save_atomic 5 C2fs C2envEncodeFail).1.destWrites = [9]
    ∧ (save_atomic 5 C2fs C2envEncodeFail).1.tmpInDestDir = none := by
  have h := C2_thm 5 C2fs C2envEncodeFail
  have hfail := h.2.2.1 (Or.inl rfl)
  exact ⟨h.1 rfl, hfail.1, hfail.2.1, hfail.2.2 rfl⟩

/-! ## Claim C3 -/

/-- C3, counterexample.  The claim says that for every supported input and
non-empty supplied copyright string, the output file's Copyright tag is that
string regardless of the input's format.  A PNG input refutes it: the PNG
save branch writes no EXIF at all (the source's own comment: Pillow can
write an exif chunk, but it is omitted to truly strip), so the replacement
mapping carrying the copyright never reaches the output file. -/
theorem C3_counterexample :
    (StripPolicy.copyright_text
       { polBase with copyright_text := some "X", outdir := some "out" } = some "X")
    ∧ ((strip_metadata "p.png" (Except.ok C3png)
          { polBase with copyright_text := some "X", outdir := some "out" } none).2.savedInfo.map
        (fun s => Exif.get s.writtenExif TAG_COPYRIGHT)) = some none := by
  decide

/-- C3, amended: for every input whose detected format is one of
JPEG/JPG/TIFF/WEBP (the formats the source passes serialized EXIF bytes to)
and every non-empty supplied copyright string, a successful strip writes an
output file whose Copyright tag is exactly that string, regardless of any
pre-existing copyright value in the source. -/
theorem C3_thm (path : String) (img : Image) (pol : StripPolicy) (sr : Option String)
    (msgs : List Msg) (s : Saved) (t : String)
    (hct : pol.copyright_text = some t) (hne : t ≠ "")
    (hfmt : FORMATS_EXIF.contains (upperStr (img.format.getD "")) = true)
    (h : strip_metadata path (Except.ok img) pol sr = (msgs, StripEffect.saved s)) :
    Exif.get s.writtenExif TAG_COPYRIGHT = some (ExifVal.str t) := by
  rw [strip_ok_eq] at h
  by_cases hmf : (is_multiframe img && !pol.force) = true
  · rw [if_pos hmf] at h
    exact StripEffect.noConfusion (congrArg Prod.snd h)
  · rw [if_neg hmf, if_pos hfmt] at h
    rcases sr with _ | e
    · have hs := StripEffect.saved.inj (congrArg Prod.snd h)
      rw [← hs]
      show Exif.get (build_new_exif img.exif pol.keep_date pol.keep_orientation
        pol.copyright_text) TAG_COPYRIGHT = some (ExifVal.str t)
      rw [build_get_copyright]
      have ht : truthyStr pol.copyright_text = true :=
        (truthyStr_iff pol.copyright_text).mpr ⟨t, hct, hne⟩
      rw [if_pos ht, hct]
      rfl
    · exact StripEffect.noConfusion (congrArg Prod.snd h)

/-- C3, witness: a JPEG input with an old copyright value, stripped with a
non-empty supplied string, ends with exactly that string in the output. -/
theorem C3_witness :
    Exif.get
      (((strip_metadata "f.jpg"
          (Except.ok { imgBaseJpeg with exif := [(TAG_COPYRIGHT, ExifVal.str "old holder")] })
          { polBase with copyright_text := some "X" } none).2.savedInfo.getD
        { outname := "", pixels := { data := 0, deOrient := none }, writtenExif := [],
          newExif := [], icc_profile := none, dpi := none }).writtenExif) TAG_COPYRIGHT
      = some (ExifVal.str "X") := by
  exact C3_thm "f.jpg"
    { imgBaseJpeg with exif := [(TAG_COPYRIGHT, ExifVal.str "old holder")] }
    { polBase with copyright_text := some "X" } none
    [Msg.okCleaned "f.jpg" "./f_clean.jpg", Msg.okAddedCopyright "X"] _ "X"
    rfl (by decide) (by decide) (by rfl)

/-! ## Claim C4 -/

/-- C4: for every multi-frame/animated input, strip with force false writes
nothing and reports exactly the skip, before any save is attempted; with
force true (and a successful save) it produces exactly one saved file whose
pixel data is the first frame's. -/
theorem C4_thm (path : String) (img : Image) (pol : StripPolicy) (sr : Option String)
    (hmf : is_multiframe img = true) :
    (pol.force = false →
      strip_metadata path (Except.ok img) pol sr
        = ([Msg.skipAnimated path], StripEffect.skippedMultiframe))
    ∧ (pol.force = true → sr = none →
      ∃ msgs s, strip_metadata path (Except.ok img) pol sr = (msgs, StripEffect.saved s)
        ∧ s.pixels.data = img.pixels.data) := by
  constructor
  · intro hf
    rw [strip_ok_eq, if_pos (by rw [hmf, hf]; rfl)]
  · intro hf hsr
    subst hsr
    rw [strip_ok_eq]
    rw [if_neg (by rw [hmf, hf]; simp)]
    by_cases h1 : FORMATS_EXIF.contains (upperStr (img.format.getD "")) = true
    · rw [if_pos h1]
      exact ⟨_, _, rfl, pixels_if_data img pol.keep_orientation⟩
    · rw [if_neg h1]
      by_cases h2 : upperStr (img.format.getD "") = "PNG"
      · rw [if_pos h2]
        exact ⟨_, _, rfl, pixels_if_data img pol.keep_orientation⟩
      · rw [if_neg h2]
        exact ⟨_, _, rfl, pixels_if_data img pol.keep_orientation⟩

/-- C4, witness: a concrete animated WEBP is skipped without force and
produces exactly one first-frame save with force. -/
theorem C4_witness :
    strip_metadata "anim.webp" (Except.ok C4anim) polBase none
      = ([Msg.skipAnimated "anim.webp"], StripEffect.skippedMultiframe)
    ∧ ∃ msgs s,
        strip_metadata "anim.webp" (Except.ok C4anim) { polBase with force := true } none
          = (msgs, StripEffect.saved s) ∧ s.pixels.data = C4anim.pixels.data := by
  exact ⟨(C4_thm "anim.webp" C4anim polBase none (by decide)).1 rfl,
         (C4_thm "anim.webp" C4anim { polBase with force := true } none (by decide)).2 rfl rfl⟩

/-! ## Claim C5 -/

/-- C5: for every successfully stripped input, if keep_orientation is false
the saved pixel buffer is the exif_transpose of the source (the declared
orientation applied to the pixels) and the Orientation tag is absent from
the replacement tag mapping handed to the save; if keep_orientation is true
the pixel buffer is saved untransposed and the Orientation tag is carried
over into the replacement mapping whenever the source has one. -/
theorem C5_thm (path : String) (img : Image) (pol : StripPolicy) (sr : Option String)
    (msgs : List Msg) (s : Saved)
    (h : strip_metadata path (Except.ok img) pol sr = (msgs, StripEffect.saved s)) :
    (pol.keep_orientation = false →
      s.pixels = (exif_transpose img).pixels
      ∧ Exif.get s.newExif TAG_ORIENTATION = none)
    ∧ (pol.keep_orientation = true →
      s.pixels = img.pixels
      ∧ ∀ v, Exif.get img.exif TAG_ORIENTATION = some v →
          Exif.get s.newExif TAG_ORIENTATION = some v) := by
  rw [strip_ok_eq] at h
  by_cases hmf : (is_multiframe img && !pol.force) = true
  · rw [if_pos hmf] at h
    exact StripEffect.noConfusion (congrArg Prod.snd h)
  · rw [if_neg hmf] at h
    have key : s.pixels = (if !pol.keep_orientation then exif_transpose img else img).pixels
        ∧ s.newExif
            = build_new_exif img.exif pol.keep_date pol.keep_orientation pol.copyright_text := by
      by_cases h1 : FORMATS_EXIF.contains (upperStr (img.format.getD "")) = true
      · rw [if_pos h1] at h
        rcases sr with _ | e
        · have hs := StripEffect.saved.inj (congrArg Prod.snd h)
          rw [← hs]
          exact ⟨rfl, rfl⟩
        · exact StripEffect.noConfusion (congrArg Prod.snd h)
      · rw [if_neg h1] at h
        by_cases h2 : upperStr (img.format.getD "") = "PNG"
        · rw [if_pos h2] at h
          rcases sr with _ | e
          · have hs := StripEffect.saved.inj (congrArg Prod.snd h)
            rw [← hs]
            exact ⟨rfl, rfl⟩
          · exact StripEffect.noConfusion (congrArg Prod.snd h)
        · rw [if_neg h2] at h
          rcases sr with _ | e
          · have hs := StripEffect.saved.inj (congrArg Prod.snd h)
            rw [← hs]
            exact ⟨rfl, rfl⟩
          · exact StripEffect.noConfusion (congrArg Prod.snd h)
    obtain ⟨hp, hn⟩ := key
    constructor
    · intro hko
      constructor
      · rw [hp, hko]
        simp
      · rw [hn, build_get_orientation, hko]
        simp
    · intro hko
      constructor
      · rw [hp, hko]
        simp
      · intro v hv
        rw [hn, build_get_orientation, hko, if_pos rfl]
        exact hv

/-- C5, witness: a JPEG with declared orientation 6, stripped without
keep_orientation, ends with transposed pixels and no orientation tag. -/
theorem C5_witness :
    C5rec.pixels = (exif_transpose C5jpeg).pixels
    ∧ Exif.get C5rec.newExif TAG_ORIENTATION = none := by
  have h := C5_thm "a.jpg" C5jpeg polBase none
    [Msg.okCleaned "a.jpg" "./a_clean.jpg"] C5rec (by rfl)
  exact h.1 rfl

/-! ## Claim C6 -/

/-- C6: under scan with positives, the output is exactly the paths of the
inputs whose tag mapping is readable and non-empty, one per line, in input
order; unreadable files and files with empty mappings produce no output at
all, and no per-tag lines are printed.  Stated both on the message level and
on the rendered lines. -/
theorem C6_thm (inputs : List ScanInput) (g : Bool) :
    scan_mode_run inputs true g
      = (inputs.filter hasMetaB).map (fun i => Msg.plainPath i.path)
    ∧ (scan_mode_run inputs true g).map Msg.render
      = (inputs.filter hasMetaB).map ScanInput.path := by
  have h1 : ∀ (l : List ScanInput),
      scan_mode_run l true g = (l.filter hasMetaB).map (fun i => Msg.plainPath i.path) := by
    intro l
    induction l with
    | nil => rfl
    | cons hd tl ih =>
      rcases hd with ⟨p, op, gps⟩
      rcases op with e | ex
      · simpa [scan_mode_run, scan_metadata, hasMetaB, List.filter_cons] using ih
      · rcases ex with _ | ⟨q, qs⟩
        · simpa [scan_mode_run, scan_metadata, hasMetaB, List.filter_cons] using ih
        · simpa [scan_mode_run, scan_metadata, hasMetaB, List.filter_cons] using ih
  refine ⟨h1 inputs, ?_⟩
  rw [h1 inputs, List.map_map]
  rfl

/-! ## Claim C7 -/

theorem foldr_strip_eq (lines : List String) :
    List.foldr (fun line acc =>
      let line := pyStrip line
      if !line.isEmpty then line :: acc else acc) [] lines
      = (lines.map pyStrip).filter (fun l => !l.isEmpty) := by
  induction lines with
  | nil => rfl
  | cons hd tl ih =>
    rw [List.foldr_cons, List.map_cons, List.filter_cons]
    dsimp only
    rw [ih]

theorem files_eq_stripped (stdinLines : Option (List String)) (files : List String) :
    files_from_stdin_or_args stdinLines files = C7strippedCandidates stdinLines files := by
  rcases stdinLines with _ | lines
  · rfl
  · simp only [files_from_stdin_or_args, C7strippedCandidates]
    rw [foldr_strip_eq]

theorem length_process_eq (isDir : String → Bool) (l : List String) :
    (process_candidates isDir l).length = l.length := by
  induction l with
  | nil => rfl
  | cons p rest ih => simp [process_candidates, ih]

theorem dispatched_process_eq (isDir : String → Bool) (l : List String) :
    dispatchedPaths (process_candidates isDir l) = l.filter (supportedFile isDir) := by
  induction l with
  | nil => rfl
  | cons p rest ih =>
    dsimp only [process_candidates]
    rw [List.filter_cons]
    by_cases hd : isDir p = true
    · have hsf : supportedFile isDir p = false := by
        unfold supportedFile
        rw [hd]
        rfl
      rw [if_pos hd, hsf, if_neg Bool.false_ne_true]
      exact ih
    · rw [Bool.not_eq_true] at hd
      rw [if_neg (by rw [hd]; exact Bool.false_ne_true)]
      by_cases hc : SUPPORTED_EXTS.contains (lowerStr (pathSuffix p)) = true
      · have hsf : supportedFile isDir p = true := by
          unfold supportedFile
          rw [hd, hc]
          rfl
        have hnc : (!SUPPORTED_EXTS.contains (lowerStr (pathSuffix p))) = false := by
          rw [hc]
          rfl
        rw [hnc, if_neg Bool.false_ne_true, hsf, if_pos rfl]
        dsimp only [dispatchedPaths]
        rw [ih]
      · rw [Bool.not_eq_true] at hc
        have hsf : supportedFile isDir p = false := by
          unfold supportedFile
          rw [hd, hc]
          rfl
        have hnc : (!SUPPORTED_EXTS.contains (lowerStr (pathSuffix p))) = true := by
          rw [hc]
          rfl
        rw [hnc, if_pos rfl, hsf, if_neg Bool.false_ne_true]
        exact ih

theorem skip_mem_process (isDir : String → Bool) (l : List String) (p : String)
    (hp : p ∈ l) (hs : supportedFile isDir p = false) :
    (if isDir p then DriverAction.report (Msg.skipDirectory p)
     else DriverAction.report (Msg.skipUnsupported p)) ∈ process_candidates isDir l := by
  induction l with
  | nil => cases hp
  | cons q rest ih =>
    rcases List.mem_cons.mp hp with heq | hmem
    · subst heq
      dsimp only [process_candidates]
      by_cases hd : isDir p = true
      · simp only [hd]
        simp
      · rw [Bool.not_eq_true] at hd
        have hc : SUPPORTED_EXTS.contains (lowerStr (pathSuffix p)) = false := by
          have h2 := hs
          unfold supportedFile at h2
          rw [hd] at h2
          simpa using h2
        have hnc : (!SUPPORTED_EXTS.contains (lowerStr (pathSuffix p))) = true := by
          rw [hc]
          rfl
        simp only [hd, hnc]
        simp
    · exact List.mem_cons_of_mem _ (ih hmem)

/-- C7, counterexample.  The claim says the candidate sequence is the
non-empty stdin lines followed by the arguments.  A whitespace-only stdin
line is non-empty, yet the source strips it to the empty string and yields
nothing, so the claimed sequence and the actual sequence differ. -/
theorem C7_counterexample :
    files_from_stdin_or_args (some [" "]) [] = []
    ∧ C7claimedCandidates (some [" "]) [] = [" "] := by
  constructor
  · rfl
  · rfl

/-- C7, amended: the candidate sequence is the whitespace-stripped stdin
lines that are non-empty after stripping (when stdin is not a terminal)
followed by the positional arguments; the driver takes exactly one action
per candidate in order (so a skip never stops processing), dispatches to
scan/strip exactly the candidates that are neither directories nor files
with unsupported extensions, and reports a skip for every other candidate. -/
theorem C7_thm (isDir : String → Bool) (stdinLines : Option (List String))
    (files : List String) :
    files_from_stdin_or_args stdinLines files = C7strippedCandidates stdinLines files
    ∧ (process_candidates isDir (files_from_stdin_or_args stdinLines files)).length
        = (files_from_stdin_or_args stdinLines files).length
    ∧ dispatchedPaths (process_candidates isDir (files_from_stdin_or_args stdinLines files))
        = (files_from_stdin_or_args stdinLines files).filter (supportedFile isDir)
    ∧ ∀ p, p ∈ files_from_stdin_or_args stdinLines files → supportedFile isDir p = false →
        (if isDir p then DriverAction.report (Msg.skipDirectory p)
         else DriverAction.report (Msg.skipUnsupported p))
          ∈ process_candidates isDir (files_from_stdin_or_args stdinLines files) :=
  ⟨files_eq_stripped stdinLines files, length_process_eq isDir _,
   dispatched_process_eq isDir _, fun p hp hs => skip_mem_process isDir _ p hp hs⟩

/-- C7, witness: a non-image argument is reported as unsupported while a
supported one is dispatched. -/
theorem C7_witness :
    DriverAction.report (Msg.skipUnsupported "notes.txt")
      ∈ process_candidates (fun _ => false)
          (files_from_stdin_or_args none ["notes.txt", "a.jpg"]) := by
  have h := (C7_thm (fun _ => false) none ["notes.txt", "a.jpg"]).2.2.2 "notes.txt"
    (by simp [files_from_stdin_or_args]) (by decide)
  simpa using h

/-! ## Claim C8 -/

/-- C8, counterexample.  The claim says an error report is emitted for every
per-file failure in every mode.  In scan positives mode a file that cannot
be opened produces no output at all: scan_metadata is called with verbose
false and its error print is guarded by verbose. -/
theorem C8_counterexample :
    scan_mode_run [{ path := "broken.jpg", opened := Except.error "unreadable", gps_ifd := [] }]
      true false = [] := by
  rfl

/-- C8, amended: in verbose scan mode and in strip mode every per-file
failure is reported (open failures in both, save failures in strip), while
in positives-only scan mode open failures are silent by design; and in both
modes processing is per-file — the outputs for a batch split into any prefix
and suffix are the outputs of the parts, so no file's failure stops or
corrupts the processing of later files. -/
theorem C8_thm :
    (∀ (p e : String) (gps : Exif) (g : Bool),
      scan_metadata { path := p, opened := Except.error e, gps_ifd := gps } true g
        = ([Msg.errorCannotOpen p e], false))
    ∧ (∀ (path e : String) (pol : StripPolicy) (sr : Option String),
      strip_metadata path (Except.error e) pol sr
        = ([Msg.errorCannotOpen path e], StripEffect.openError e))
    ∧ (∀ (path : String) (img : Image) (pol : StripPolicy) (sr : Option String)
        (msgs : List Msg) (o m : String),
      strip_metadata path (Except.ok img) pol sr = (msgs, StripEffect.saveError o m) →
      Msg.errorCouldNotSave o m ∈ msgs)
    ∧ (∀ (xs ys : List ScanInput) (pos g : Bool),
      scan_mode_run (xs ++ ys) pos g = scan_mode_run xs pos g ++ scan_mode_run ys pos g)
    ∧ (∀ (pol : StripPolicy) (xs ys : List StripInput),
      strip_mode_run pol (xs ++ ys) = strip_mode_run pol xs ++ strip_mode_run pol ys) := by
  refine ⟨fun p e gps g => rfl, fun path e pol sr => rfl, ?_, ?_, ?_⟩
  · intro path img pol sr msgs o m h
    rw [strip_ok_eq] at h
    by_cases hmf : (is_multiframe img && !pol.force) = true
    · rw [if_pos hmf] at h
      exact StripEffect.noConfusion (congrArg Prod.snd h)
    · rw [if_neg hmf] at h
      rcases sr with _ | e2 <;>
        split at h <;> (try split at h) <;> simp_all <;>
          (rcases h with ⟨hm2, ho, hme⟩; subst hm2; subst ho; subst hme; simp)
  · intro xs ys pos g
    simp [scan_mode_run]
  · intro pol xs ys
    simp [strip_mode_run]

/-- C8, witness: a concrete failing save in strip mode is reported. -/
theorem C8_witness :
    Msg.errorCouldNotSave "f.jpg" "no space"
      ∈ (strip_metadata "f.jpg" (Except.ok imgBaseJpeg)
          { polBase with inplace := true } (some "no space")).1 := by
  exact C8_thm.2.2.1 "f.jpg" imgBaseJpeg { polBase with inplace := true } (some "no space")
    [Msg.errorCouldNotSave "f.jpg" "no space"] "f.jpg" "no space" (by rfl)

/-! ## Claim C9 -/

theorem build_empty_copyright (s : Exif) (kd ko : Bool) :
    build_new_exif s kd ko (some "") = build_new_exif s kd ko none := rfl

/-- A strip run whose policy carries no truthy copyright string never prints
the Added-copyright confirmation. -/
theorem no_added_line (path : String) (opened : Except String Image) (pol : StripPolicy)
    (sr : Option String) (hct : truthyStr pol.copyright_text = false) (t : String) :
    Msg.okAddedCopyright t ∉ (strip_metadata path opened pol sr).1 := by
  rcases opened with e | img
  · simp [strip_metadata]
  · rw [strip_ok_eq]
    have hok : ∀ o, Msg.okAddedCopyright t ∉ okMsgsOf path o pol := by
      intro o
      unfold okMsgsOf
      rw [hct, if_neg Bool.false_ne_true, List.append_nil]
      split <;> simp
    by_cases hmf : (is_multiframe img && !pol.force) = true
    · rw [if_pos hmf]
      simp
    · rw [if_neg hmf]
      rcases sr with _ | e2
      · split
        · exact hok _
        · split
          · exact hok _
          · simp only [List.mem_cons]
            rintro (hcon | hmem)
            · exact Msg.noConfusion hcon
            · exact hok _ hmem
      · split <;> (try split) <;> simp_all

/-- C9: supplying the empty string as the copyright behaves exactly as
supplying none: the whole strip run is unchanged, the Copyright tag is
absent from the replacement mapping, and no Added-copyright confirmation is
ever printed. -/
theorem C9_thm (path : String) (opened : Except String Image) (pol : StripPolicy)
    (sr : Option String) :
    strip_metadata path opened { pol with copyright_text := some "" } sr
      = strip_metadata path opened { pol with copyright_text := none } sr
    ∧ (∀ (src : Exif) (kd ko : Bool),
        Exif.get (build_new_exif src kd ko (some "")) TAG_COPYRIGHT = none)
    ∧ ∀ t, Msg.okAddedCopyright t
        ∉ (strip_metadata path opened { pol with copyright_text := some "" } sr).1 := by
  refine ⟨?_, ?_, ?_⟩
  · rcases opened with e | img <;> rfl
  · intro src kd ko
    rw [build_get_copyright]
    rfl
  · intro t
    exact no_added_line path opened { pol with copyright_text := some "" } sr rfl t

/-- C9, witness: a concrete strip with the empty copyright string equals the
no-copyright run and prints no Added-copyright line. -/
theorem C9_witness :
    strip_metadata "a.jpg" (Except.ok imgBaseJpeg)
        { polBase with copyright_text := some "" } none
      = strip_metadata "a.jpg" (Except.ok imgBaseJpeg)
          { polBase with copyright_text := none } none
    ∧ Msg.okAddedCopyright "X"
        ∉ (strip_metadata "a.jpg" (Except.ok imgBaseJpeg)
            { polBase with copyright_text := some "" } none).1 := by
  exact ⟨(C9_thm "a.jpg" (Except.ok imgBaseJpeg) polBase none).1,
         (C9_thm "a.jpg" (Except.ok imgBaseJpeg) polBase none).2.2 "X"⟩

/-! ## Claim C10 -/

/-- C10: when probing the animation status raises, or the animation probe
answers false and probing the frame count raises, is_multiframe returns
false and the strip run does not skip the file as multi-frame, regardless of
force.  (When the animation probe answers true the frame-count probe is
never evaluated, by the short-circuit in the source.) -/
theorem C10_thm (path : String) (img : Image) (pol : StripPolicy) (sr : Option String)
    (h : img.animated_probe = Except.error ()
         ∨ (img.animated_probe = Except.ok false ∧ img.nframes_probe = Except.error ())) :
    is_multiframe img = false
    ∧ StripEffect.isSkip (strip_metadata path (Except.ok img) pol sr).2 = false := by
  have hm : is_multiframe img = false := by
    rcases h with h1 | ⟨h1, h2⟩
    · simp [is_multiframe, h1]
    · simp [is_multiframe, h1, h2]
  refine ⟨hm, ?_⟩
  rw [strip_ok_eq]
  rw [if_neg (by rw [hm]; simp)]
  rcases sr with _ | e <;> split <;> (try split) <;> rfl

/-- C10, witness: a concrete image whose probes raise is processed, not
skipped, with force false. -/
theorem C10_witness :
    is_multiframe C10probeErr = false
    ∧ StripEffect.isSkip (strip_metadata "x.jpg" (Except.ok C10probeErr) polBase none).2
        = false :=
  C10_thm "x.jpg" C10probeErr polBase none (Or.inl rfl)

end Metaclean
